import Mathlib

/-!
Verification of the transx2gtfs / txc2gtfs TransXChange-to-GTFS converter.

The repository ships two parallel implementations: the legacy package
`transx2gtfs` and the rewritten package `txc2gtfs`.  The definitions below
are shallow embeddings of the corresponding Python functions; pandas
DataFrames are modelled as Lists of structure values, `None`/`NaN` cells as
`Option`, and Python exceptions as `Except`.
-/

set_option autoImplicit false

namespace TxcGtfs

/-- One row of the intermediate "GTFS info" DataFrame produced by
`get_gtfs_info`, restricted to the columns the projectors under
verification consume.  `stop_sequence` and `timepoint` are already held as
integers (the source casts them with `astype(int)`); `non_operative_days`
is the nullable pipe-joined token column. -/
structure InfoRow where
  route_id : String
  service_id : String
  trip_id : String
  trip_headsign : String
  direction_id : Int
  stop_id : String
  arrival_time : String
  departure_time : String
  stop_sequence : Int
  timepoint : Int
  non_operative_days : Option String
  deriving Repr, DecidableEq

/-- A row of the `stop_times` output table: the six columns selected by
`get_stop_times` (src/txc2gtfs/stop_times.py, `stop_times_cols`). -/
structure StopTimeRow where
  trip_id : String
  arrival_time : String
  departure_time : String
  stop_id : String
  stop_sequence : Int
  timepoint : Int
  deriving Repr, DecidableEq

/-- A row of the `trips` output table (src/transx2gtfs/trips.py,
`trip_cols`). -/
structure TripRow where
  route_id : String
  service_id : String
  trip_id : String
  trip_headsign : String
  direction_id : Int
  deriving Repr, DecidableEq

/-- pandas `drop_duplicates(subset=…)`: keep the first row for every key,
preserving row order.  `seen` accumulates the keys already emitted. -/
def dedupByKey {α κ : Type} [DecidableEq κ] (key : α → κ) (seen : List κ) :
    List α → List α
  | [] => []
  | x :: xs =>
    if key x ∈ seen then dedupByKey key seen xs
    else x :: dedupByKey key (key x :: seen) xs

/-- pandas `drop_duplicates()` over whole rows. -/
def dedupRows {α : Type} [DecidableEq α] (l : List α) : List α :=
  dedupByKey id [] l

/-- Column projection `gtfs_info[stop_times_cols]`. -/
def projStopTime (r : InfoRow) : StopTimeRow :=
  ⟨r.trip_id, r.arrival_time, r.departure_time, r.stop_id,
    r.stop_sequence, r.timepoint⟩

/-- Column projection `trips[trip_cols]`. -/
def projTrip (r : InfoRow) : TripRow :=
  ⟨r.route_id, r.service_id, r.trip_id, r.trip_headsign, r.direction_id⟩

/-- Model of `get_stop_times` (src/txc2gtfs/stop_times.py lines 16-51): select the
six stop_times columns, drop duplicate rows, group by `trip_id` (pandas
iterates groups in sorted key order) and keep only groups with more than
one row; groups of size ≤ 1 are excluded (and logged). -/
def get_stop_times (gtfs_info : List InfoRow) : List StopTimeRow :=
  let st := dedupRows (gtfs_info.map projStopTime)
  let keys := List.insertionSort (· ≤ ·)
    (dedupRows (st.map StopTimeRow.trip_id))
  keys.flatMap fun k =>
    let group := st.filter (fun r => r.trip_id == k)
    if 1 < group.length then group else []

/-- Model of `get_trips` (src/transx2gtfs/trips.py lines 10-22): drop duplicates on
the key (`route_id`, `service_id`, `trip_id`), project the five trip
columns, coerce `direction_id` to int.  Note: no filtering against the
stop_times table happens here. -/
def get_trips (gtfs_info : List InfoRow) : List TripRow :=
  (dedupByKey (fun r => (r.route_id, r.service_id, r.trip_id)) []
    gtfs_info).map projTrip

lemma dedupByKey_key_not_mem {α κ : Type} [DecidableEq κ] (key : α → κ) :
    ∀ (l : List α) (seen : List κ) (x : α),
      x ∈ dedupByKey key seen l → key x ∉ seen := by
  intro l
  induction l with
  | nil => intro seen x hx; simp [dedupByKey] at hx
  | cons a as ih =>
    intro seen x hx
    by_cases h : key a ∈ seen
    · exact ih seen x (by simpa [dedupByKey, h] using hx)
    · simp only [dedupByKey, h, if_false, List.mem_cons] at hx
      rcases hx with rfl | hx
      · exact h
      · have := ih (key a :: seen) x hx
        exact fun hc => this (List.mem_cons_of_mem _ hc)

lemma dedupByKey_map_key_nodup {α κ : Type} [DecidableEq κ] (key : α → κ) :
    ∀ (l : List α) (seen : List κ),
      ((dedupByKey key seen l).map key).Nodup := by
  intro l
  induction l with
  | nil => intro seen; simp [dedupByKey]
  | cons a as ih =>
    intro seen
    by_cases h : key a ∈ seen
    · simpa [dedupByKey, h] using ih seen
    · simp only [dedupByKey, h, if_false, List.map_cons, List.nodup_cons]
      refine ⟨?_, ih (key a :: seen)⟩
      intro hmem
      rcases List.mem_map.mp hmem with ⟨y, hy, hky⟩
      have := dedupByKey_key_not_mem key as (key a :: seen) y hy
      exact this (by simp [hky])

lemma dedupRows_nodup {α : Type} [DecidableEq α] (l : List α) :
    (dedupRows l).Nodup := by
  have h := dedupByKey_map_key_nodup (id : α → α) l []
  simpa [dedupRows] using h

/-- Every member of a by-trip group carries that group's trip id. -/
lemma mem_group_trip_id (st : List StopTimeRow) (k : String)
    (r : StopTimeRow) (hr : r ∈ st.filter (fun r => r.trip_id == k)) :
    r.trip_id = k := by
  have := (List.mem_filter.mp hr).2
  exact eq_of_beq this

/-- Filtering the concatenated kept groups by one trip id recovers exactly
that trip's group when it was kept, and nothing otherwise. -/
lemma filter_flatMap_groups (st : List StopTimeRow) (tid : String) :
    ∀ keys : List String, keys.Nodup →
      ((keys.flatMap fun k =>
          let group := st.filter (fun r => r.trip_id == k)
          if 1 < group.length then group else []).filter
        (fun r => r.trip_id == tid))
      = if tid ∈ keys ∧ 1 < (st.filter (fun r => r.trip_id == tid)).length
        then st.filter (fun r => r.trip_id == tid) else [] := by
  intro keys
  induction keys with
  | nil => intro _; simp
  | cons k ks ih =>
    intro hnd
    have hknotin : k ∉ ks := (List.nodup_cons.mp hnd).1
    have hndks : ks.Nodup := (List.nodup_cons.mp hnd).2
    rw [List.flatMap_cons, List.filter_append, ih hndks]
    by_cases hk : k = tid
    · subst hk
      have hfix :
          ((st.filter (fun r => r.trip_id == k)).filter
            (fun r => r.trip_id == k))
          = st.filter (fun r => r.trip_id == k) := by
        apply List.filter_eq_self.mpr
        intro r hr
        exact (List.mem_filter.mp hr).2
      by_cases hlen : 1 < (st.filter (fun r => r.trip_id == k)).length
      · simp [hlen, hfix, hknotin]
      · simp [hlen, hknotin]
    · have hblock :
          ((if 1 < (st.filter (fun r => r.trip_id == k)).length
            then st.filter (fun r => r.trip_id == k) else []).filter
            (fun r => r.trip_id == tid)) = [] := by
        by_cases hlen : 1 < (st.filter (fun r => r.trip_id == k)).length
        · simp only [hlen, if_true]
          apply List.filter_eq_nil_iff.mpr
          intro r hr
          have : r.trip_id = k := mem_group_trip_id st k r hr
          simp [this, hk]
        · simp [hlen]
      rw [hblock, List.nil_append]
      by_cases htid : tid ∈ ks
      · simp [htid, hk, Ne.symm hk]
      · simp [htid, hk, Ne.symm hk]

/-- C1 (amended, stop_times half): a trip id present in the stop_times
output always owns at least two of its rows. -/
theorem stop_times_trip_has_two_rows (gtfs_info : List InfoRow)
    (tid : String)
    (h : tid ∈ (get_stop_times gtfs_info).map StopTimeRow.trip_id) :
    2 ≤ ((get_stop_times gtfs_info).filter
      (fun r => r.trip_id == tid)).length := by
  classical
  set st := dedupRows (gtfs_info.map projStopTime) with hst
  set keys := List.insertionSort (· ≤ ·)
    (dedupRows (st.map StopTimeRow.trip_id)) with hkeys
  have hnd : keys.Nodup := by
    have h1 : (dedupRows (st.map StopTimeRow.trip_id)).Nodup :=
      dedupRows_nodup _
    have h2 : keys.Perm (dedupRows (st.map StopTimeRow.trip_id)) :=
      List.perm_insertionSort _ _
    exact h2.nodup_iff.mpr h1
  have hout : get_stop_times gtfs_info
      = keys.flatMap fun k =>
          let group := st.filter (fun r => r.trip_id == k)
          if 1 < group.length then group else [] := rfl
  have hfil := filter_flatMap_groups st tid keys hnd
  rcases List.mem_map.mp h with ⟨r, hr, hrt⟩
  have hrfil : r ∈ (get_stop_times gtfs_info).filter
      (fun r => r.trip_id == tid) :=
    List.mem_filter.mpr ⟨hr, by simp [hrt]⟩
  rw [hout] at hrfil ⊢
  rw [hfil] at hrfil ⊢
  by_cases hc : tid ∈ keys ∧ 1 < (st.filter (fun r => r.trip_id == tid)).length
  · simp only [hc, if_true]
    exact hc.2
  · simp [hc] at hrfil

/-- Model of `get_direction` (src/txc2gtfs/stop_times.py lines 6-13): "inbound"
maps to 0, "outbound" to 1, anything else raises ValueError. -/
def get_direction (direction_id : String) : Except String Int :=
  if direction_id = "inbound" then .ok 0
  else if direction_id = "outbound" then .ok 1
  else .error ("Cannot determine direction from " ++ direction_id)

/-- Model of `get_mode` (src/txc2gtfs/routes.py lines 8-22).  The argument is the
text of the service's optional `Mode` element: `get_text(service,
"txc:Mode", default=None)` yields `None` when the element is absent or
its text empty.  Note the second token of the first branch is the
camel-cased "trolleyBus". -/
def get_mode (mode : Option String) : Int :=
  if mode = some ("tram") ∨ mode = some ("trolleyBus") then 0
  else if mode = some ("underground") ∨ mode = some ("metro") then 1
  else if mode = some ("rail") then 2
  else if mode = some ("bus") ∨ mode = some ("coach") then 3
  else if mode = some ("ferry") then 4
  else 3

/-- The recognized-mode tokens, in source branch order. -/
def recognizedModes : List (Option String) :=
  [some ("tram"), some ("trolleyBus"), some ("underground"), some ("metro"),
    some ("rail"), some ("bus"), some ("coach"), some ("ferry")]

/-- Coordinate-system heuristic of the inline-StopPoint fallback
(src/txc2gtfs/stops.py lines 110-116, src/transx2gtfs/stops.py lines
124-130): an easting strictly greater than 180 selects the projected
OSGB36 system (EPSG 7405); anything else is taken as WGS84 degrees (EPSG
4326).  Raw coordinate text is modelled by exact rationals. -/
def detect_epsg (x : ℚ) : ℕ := if 180 < x then 7405 else 4326

/-- The coordinate half of the fallback: when the detected system is 7405
the pyproj OSGB36-to-WGS84 transform is applied to the pair, otherwise
the raw pair is kept untouched.  The numeric transform is an external
library call, passed as a parameter; the result also reports the detected
EPSG code. -/
def fallback_coords (transform : ℚ → ℚ → ℚ × ℚ) (x y : ℚ) :
    (ℚ × ℚ) × ℕ :=
  if detect_epsg x = 7405 then (transform x y, 7405) else ((x, y), 4326)

/-- The alias table `_KNOWN_HOLIDAYS` (src/txc2gtfs/calendar_dates.py
lines 28-40, identical in src/transx2gtfs/calendar_dates.py). -/
def KNOWN_HOLIDAYS : List (String × String) := [
  ("SpringBank", "Spring bank holiday"),
  ("LateSummerBankHolidayNotScotland", "Summer bank holiday"),
  ("MayDay", "Early May bank holiday"),
  ("GoodFriday", "Good Friday"),
  ("EasterMonday", "Easter Monday"),
  ("BoxingDay", "Boxing Day"),
  ("ChristmasDay", "Christmas Day"),
  ("NewYearsDay", "New Year’s Day"),
  ("BoxingDayHoliday", "Boxing Day"),
  ("ChristmasDayHoliday", "Christmas Day"),
  ("NewYearsDayHoliday", "New Year’s Day")]

/-- A row of the `calendar_dates` output table. -/
structure CalendarDateRow where
  service_id : String
  date : String
  exception_type : Int
  deriving Repr, DecidableEq

/-- Python `value.split("|")`, modelled over the character list:
`acc` holds the (reversed) characters of the current piece. -/
def splitOnPipeChars : List Char → List Char → List String
  | [], acc => [String.mk acc.reverse]
  | c :: cs, acc =>
    if c = '|' then String.mk acc.reverse :: splitOnPipeChars cs []
    else splitOnPipeChars cs (c :: acc)

/-- Python `value.split("|")`. -/
def splitOnPipe (s : String) : List String := splitOnPipeChars s.toList []

/-- Python `holiday.endswith("Eve")`. -/
def endsWithEve (s : String) : Bool :=
  s.toList.reverse.take 3 == ['e', 'v', 'E']

/-- The distinct non-operative-day tokens of a GTFS-info table
(src/txc2gtfs/calendar_dates.py lines 56-65): drop null
`non_operative_days` cells, take the distinct non-empty values, split each
on "|" and collect the set of tokens. -/
def non_operative_tokens (info : List InfoRow) : List String :=
  let uniqueVals := dedupRows (info.filterMap (fun r => r.non_operative_days))
  let nonEmptyVals := uniqueVals.filter (fun s => !(s == ""))
  dedupRows (nonEmptyVals.flatMap splitOnPipe)

/-- The "Did not recognize holiday" warnings (src/txc2gtfs/calendar_dates.py
lines 68-78): a token that is not a `_KNOWN_HOLIDAYS` key, not
"AllBankHolidays" and not suffixed "Eve" is warned about and otherwise
ignored. -/
def holiday_warnings (tokens : List String) : List String :=
  (tokens.filter (fun h =>
    !((KNOWN_HOLIDAYS.map Prod.fst).contains h) && !(h == "AllBankHolidays")
      && !(endsWithEve h))).map
    (fun h => "Did not recognize holiday " ++ h)

/-- Model of `get_calendar_dates` (src/txc2gtfs/calendar_dates.py lines 43-104).
`bank_holiday_dates` abstracts `get_bank_holiday_dates`, the network/
bundled-data lookup of the bank-holiday dates falling inside the feed's
operative window; the source calls it on the dropna-filtered table.
Returns the optional calendar_dates table together with the emitted
warnings: `None` when no tokens are present or when no holiday falls in
the window, otherwise one row per (distinct service_id, date) pair with
`exception_type = 2`. -/
def get_calendar_dates (bank_holiday_dates : List InfoRow → List String)
    (gtfs_info : List InfoRow) :
    Option (List CalendarDateRow) × List String :=
  let info := gtfs_info.filter (fun r => r.non_operative_days.isSome)
  let non_operatives := non_operative_tokens info
  let warns := holiday_warnings non_operatives
  if 0 < non_operatives.length then
    let bank_holidays := bank_holiday_dates info
    if bank_holidays.isEmpty then (none, warns)
    else
      (some ((dedupByKey InfoRow.service_id [] info).flatMap
        (fun r => bank_holidays.map
          (fun d => (⟨r.service_id, d, 2⟩ : CalendarDateRow)))), warns)
  else (none, warns)

/-- Model of `get_calendar_dates` of the legacy package
(src/transx2gtfs/calendar_dates.py lines 42-112).  The token handling and
the two `return None` paths match the rewritten version, but the
row-building section (lines 94 and 107) calls `update_calendar_info`, a
name defined nowhere in the module, and appends to the never-initialized
variable `calendar_dates`; the branch that should emit rows therefore
raises `NameError`. -/
def get_calendar_dates_legacy
    (bank_holiday_dates : List InfoRow → List String)
    (gtfs_info : List InfoRow) :
    Except String (Option (List CalendarDateRow) × List String) :=
  let info := gtfs_info.filter (fun r => r.non_operative_days.isSome)
  let non_operatives := non_operative_tokens info
  let warns := holiday_warnings non_operatives
  if 0 < non_operatives.length then
    let bank_holidays := bank_holiday_dates info
    if bank_holidays.isEmpty then .ok (none, warns)
    else .error ("NameError: name update_calendar_info is not defined")
  else .ok (none, warns)

/-- The entity tables `process_file` appends to the staging database, in
write order. -/
inductive TableWrite where
  | agency
  | stop_times
  | stops
  | routes
  | trips
  | calendar
  | calendar_dates
  deriving Repr, DecidableEq

/-- Model of `process_file` (src/txc2gtfs/converter.py lines 64-115), restricted to
its effect on the accumulation store.  All six projector outputs are
computed up front, but every `to_sql`/`populate` call sits inside the
`len(stop_times) > 0` branch, with `calendar_dates` written only when it
is not None; the else branch only prints a warning.  The model returns
the list of tables written and the printed messages. -/
def process_file (bank_holiday_dates : List InfoRow → List String)
    (path : String) (gtfs_info : List InfoRow) :
    List TableWrite × List String :=
  let stop_times := get_stop_times gtfs_info
  let calendar_dates := (get_calendar_dates bank_holiday_dates gtfs_info).1
  if 0 < stop_times.length then
    ([TableWrite.agency, TableWrite.stop_times, TableWrite.stops,
      TableWrite.routes, TableWrite.trips, TableWrite.calendar] ++
      (match calendar_dates with
        | some _ => [TableWrite.calendar_dates]
        | none => []), [])
  else
    ([], ["UserWarning: File " ++ path ++
      " did not contain valid stop_sequence data, skipping."])

/-- A GTFS-info row for a vehicle journey that visits a single stop. -/
def soloRow : InfoRow :=
  { route_id := "R1", service_id := "SV1", trip_id := "T1",
    trip_headsign := "Uxbridge", direction_id := 0,
    stop_id := "490000001A", arrival_time := "06:00:00",
    departure_time := "06:00:00", stop_sequence := 1, timepoint := 1,
    non_operative_days := none }

/-- First stop visit of a two-stop trip. -/
def pairRowA : InfoRow := soloRow

/-- Second stop visit of the same trip. -/
def pairRowB : InfoRow :=
  { soloRow with
    stop_id := "490000002B", stop_sequence := 2,
    arrival_time := "06:05:00", departure_time := "06:05:00" }

/-- A GTFS-info row carrying the non-operation token "ChristmasDay". -/
def christmasRow : InfoRow :=
  { soloRow with
    non_operative_days := some ("ChristmasDay") }

/-- C1: counterexample.  A trip with a single (deduplicated) stop-time row
is dropped from the stop_times output, yet `get_trips` still emits it:
its trip_id appears in the trips table with zero stop_times rows, so the
claimed "at least 2 rows in stop_times for every trip in trips" fails. -/
theorem trips_keeps_single_stop_trip :
    (get_trips [soloRow]).map TripRow.trip_id = ["T1"] ∧
    ((get_stop_times [soloRow]).filter
      (fun r => r.trip_id == "T1")).length = 0 := by
  constructor <;> rfl

/-- C1 witness: at a concrete two-row trip the theorem applies. -/
theorem stop_times_trip_has_two_rows_witness :
    ("T1" ∈ (get_stop_times [pairRowA, pairRowB]).map StopTimeRow.trip_id)
    ∧ 2 ≤ ((get_stop_times [pairRowA, pairRowB]).filter
      (fun r => r.trip_id == "T1")).length :=
  ⟨by decide, stop_times_trip_has_two_rows [pairRowA, pairRowB] "T1" (by decide)⟩

/-- C8: `get_direction` maps "inbound" to 0 and "outbound" to 1, and
raises ValueError on every other token — it never guesses. -/
theorem get_direction_total_spec :
    get_direction ("inbound") = .ok 0 ∧ get_direction ("outbound") = .ok 1 ∧
    ∀ s : String, s ≠ "inbound" → s ≠ "outbound" →
      get_direction s = .error ("Cannot determine direction from " ++ s) := by
  refine ⟨rfl, rfl, ?_⟩
  intro s h1 h2
  simp [get_direction, h1, h2]

/-- C8 witness: the unrecognized token "northbound" is rejected. -/
theorem get_direction_total_spec_witness :
    ("northbound" : String) ≠ "inbound" ∧
    ("northbound" : String) ≠ "outbound" ∧
    get_direction ("northbound")
      = .error ("Cannot determine direction from " ++ "northbound") :=
  ⟨by decide, by decide,
    get_direction_total_spec.2.2 ("northbound") (by decide) (by decide)⟩

/-- C4: counterexample.  The source's first branch recognizes the
camel-cased token "trolleyBus"; the all-lowercase token "trolleybus" of
the claim matches no branch and falls through to the default 3, not 0. -/
theorem get_mode_lowercase_trolleybus :
    get_mode (some ("trolleybus")) = 3 ∧ ((3 : Int) ≠ 0) := by
  constructor
  · rfl
  · decide

/-- C4 (amended): the fixed mapping with the camel-cased "trolleyBus"
token: tram/trolleyBus to 0, underground/metro to 1, rail to 2, bus/coach
to 3, ferry to 4; a missing mode or any token outside the table (the
lowercase "trolleybus" included) yields the default 3, and the function
is total (never raises). -/
theorem get_mode_mapping :
    get_mode (some ("tram")) = 0 ∧ get_mode (some ("trolleyBus")) = 0 ∧
    get_mode (some ("underground")) = 1 ∧ get_mode (some ("metro")) = 1 ∧
    get_mode (some ("rail")) = 2 ∧
    get_mode (some ("bus")) = 3 ∧ get_mode (some ("coach")) = 3 ∧
    get_mode (some ("ferry")) = 4 ∧
    get_mode none = 3 ∧
    ∀ m : Option String, m ∉ recognizedModes → get_mode m = 3 := by
  refine ⟨rfl, rfl, rfl, rfl, rfl, rfl, rfl, rfl, rfl, ?_⟩
  intro m hm
  simp only [recognizedModes, List.mem_cons, List.not_mem_nil, or_false,
    not_or] at hm
  obtain ⟨h1, h2, h3, h4, h5, h6, h7, h8⟩ := hm
  simp [get_mode, h1, h2, h3, h4, h5, h6, h7, h8]

/-- C4 witness: the unrecognized token "hovercraft" defaults to 3. -/
theorem get_mode_mapping_witness :
    (some ("hovercraft") ∉ recognizedModes) ∧
    get_mode (some ("hovercraft")) = 3 :=
  ⟨by decide, get_mode_mapping.2.2.2.2.2.2.2.2.2 (some ("hovercraft")) (by decide)⟩

/-- C3: counterexample.  The heuristic compares the signed easting with
180, not its magnitude: a raw value of -529000 has magnitude far above
180, yet the code classifies it as already-geographic (EPSG 4326) and
leaves the pair untransformed. -/
theorem detect_epsg_ignores_magnitude :
    (180 : ℚ) < |(-529000 : ℚ)| ∧
    detect_epsg (-529000) = 4326 ∧
    fallback_coords (fun a b => (a + 1, b + 1)) (-529000) 0
      = ((-529000, 0), 4326) := by
  refine ⟨by norm_num, ?_, ?_⟩
  · norm_num [detect_epsg]
  · norm_num [fallback_coords, detect_epsg]

/-- C3 (amended): the fallback classifies a coordinate pair as projected
(EPSG 7405) exactly when the raw easting is strictly greater than 180 —
the signed value, not its magnitude — applying the OSGB36-to-WGS84
transform in that case and keeping the raw pair untouched otherwise; the
easting 529000 is classified as projected. -/
theorem detect_epsg_signed_threshold (transform : ℚ → ℚ → ℚ × ℚ)
    (x y : ℚ) :
    (180 < x → fallback_coords transform x y = (transform x y, 7405)) ∧
    (x ≤ 180 → fallback_coords transform x y = ((x, y), 4326)) ∧
    detect_epsg 529000 = 7405 := by
  refine ⟨?_, ?_, by norm_num [detect_epsg]⟩
  · intro h
    simp [fallback_coords, detect_epsg, h]
  · intro h
    have h' : ¬ (180 : ℚ) < x := not_lt.mpr h
    simp [fallback_coords, detect_epsg, h']

/-- C3 witness: at easting 529000 the transform branch is taken. -/
theorem detect_epsg_signed_threshold_witness :
    (180 : ℚ) < 529000 ∧
    fallback_coords (fun a b => (b, a)) 529000 0 = ((0, 529000), 7405) :=
  ⟨by norm_num,
    (detect_epsg_signed_threshold (fun a b => (b, a)) 529000 0).1 (by norm_num)⟩

/-- C2: at a GTFS-info table carrying the token "ChristmasDay" with one
bank holiday inside the operative window, the legacy
`get_calendar_dates` (src/transx2gtfs/calendar_dates.py) raises NameError
— its row-building code calls the undefined `update_calendar_info` —
instead of emitting the rows; the rewritten version
(src/txc2gtfs/calendar_dates.py) returns exactly one row per (distinct
service_id, bank-holiday date) pair with exception_type 2, as claimed. -/
theorem calendar_dates_legacy_raises :
    get_calendar_dates_legacy (fun _ => ["20251225"]) [christmasRow]
      = .error ("NameError: name update_calendar_info is not defined") ∧
    get_calendar_dates (fun _ => ["20251225"]) [christmasRow]
      = (some [⟨"SV1", "20251225", 2⟩], []) := by
  constructor <;> rfl

/-- C10: when the filtered stop_times table of a document is empty,
`process_file` appends nothing at all to the accumulation store — no
agency, stops, routes, trips, calendar or calendar_dates rows either —
and only prints the skip warning. -/
theorem process_file_skips_empty
    (bank_holiday_dates : List InfoRow → List String)
    (path : String) (gtfs_info : List InfoRow)
    (h : get_stop_times gtfs_info = []) :
    process_file bank_holiday_dates path gtfs_info
      = ([], ["UserWarning: File " ++ path ++
          " did not contain valid stop_sequence data, skipping."]) := by
  simp [process_file, h]

/-- C10 witness: a document whose only trip has a single stop visit has
a nonempty GTFS-info table but an empty filtered stop_times table, and is
skipped wholesale. -/
theorem process_file_skips_empty_witness :
    get_stop_times [soloRow] = [] ∧
    process_file (fun _ => []) "doc.xml" [soloRow]
      = ([], ["UserWarning: File " ++ "doc.xml" ++
          " did not contain valid stop_sequence data, skipping."]) :=
  ⟨by decide, process_file_skips_empty (fun _ => []) "doc.xml" [soloRow] (by decide)⟩

/-- A stop row in the NaPTAN-derived stops table, with the columns kept by
`read_naptan_stops`: stop_id (ATCOCode), stop_lon, stop_lat, stop_name.
The inline-StopPoint fallback also fills constant-None stop_code and
stop_url cells, omitted here. -/
structure StopRow where
  stop_id : String
  stop_lon : ℚ
  stop_lat : ℚ
  stop_name : String
  deriving Repr, DecidableEq

/-- Cache environment for NaPTAN registry reads of the legacy package:
`cached` is the content of the on-disk stops.csv, stable within one run
(`_get_or_download_naptan_stops_csv` downloads only when the file is
absent); `fresh` is what a forced refresh (delete plus re-download) would
return.  `read_naptan_stops` sees the fresh content only after the cache
file has been deleted. -/
structure NaptanCache where
  cached : List StopRow
  fresh : List StopRow

/-- Model of `read_naptan_stops` (src/transx2gtfs/stops.py lines 40-69):
returns the cached table unless the cache was deleted beforehand, in
which case a fresh copy is downloaded and returned. -/
def read_naptan_stops (env : NaptanCache) (cacheDeleted : Bool) :
    List StopRow :=
  if cacheDeleted then env.fresh else env.cached

/-- Warning text "Did not find a NaPTAN stop for '…'" emitted for an
unresolved stop reference. -/
def missWarning (sid : String) : String :=
  "Did not find a NaPTAN stop for \x27" ++ sid ++ "\x27"

/-- Model of `_get_txc_21_style_stops` of the legacy package
(src/transx2gtfs/stops.py lines 163-202).  On a miss the loop re-calls
`read_naptan_stops()` WITHOUT deleting the cache first — the call
`_delete_cached_naptan_stops_csv()` on line 183 is commented out — so the
second lookup reads the same cached table.  A stop still missing is
warned about and skipped; an initial lookup with more than one match
raises ValueError.  Returns the collected rows and warnings. -/
def txc21_style_stops_legacy (env : NaptanCache) :
    List String → Except String (List StopRow × List String)
  | [] => .ok ([], [])
  | sid :: rest =>
    let naptan := read_naptan_stops env false
    let s1 := naptan.filter (fun r => r.stop_id == sid)
    if s1.length = 0 then
      let naptan2 := read_naptan_stops env false
      let s2 := naptan2.filter (fun r => r.stop_id == sid)
      if s2.length = 0 then
        match txc21_style_stops_legacy env rest with
        | .ok (rows, warns) => .ok (rows, missWarning sid :: warns)
        | .error e => .error e
      else
        match txc21_style_stops_legacy env rest with
        | .ok (rows, warns) => .ok (s2 ++ rows, warns)
        | .error e => .error e
    else if s1.length > 1 then
      .error ("Had more than 1 stop with identical stop reference.")
    else
      match txc21_style_stops_legacy env rest with
      | .ok (rows, warns) => .ok (s1 ++ rows, warns)
      | .error e => .error e

/-- Model of `_get_txc_21_style_stops` of the rewritten package
(src/txc2gtfs/stops.py lines 149-166): a single `read_naptan_stops()`
call followed by an `isin` membership filter over the collected
StopPointRef ids — no per-stop retry, no duplicate check, and no warning
for unmatched ids.  Returns the rows together with the (always empty)
warning list. -/
def txc21_style_stops (env : NaptanCache) (stop_ids : List String) :
    List StopRow × List String :=
  ((read_naptan_stops env false).filter
    (fun r => stop_ids.contains r.stop_id), [])

/-- Modelled from the spec: what section 4.2 prescribes for a registry
miss — one retry performed after FORCING a refresh of the registry cache
(the repository contains no code doing this: the refresh call is
commented out of src/transx2gtfs/stops.py and absent from
src/txc2gtfs/stops.py), then warn-and-omit if still unresolved.  This
definition follows the spec's words, for comparison with the source
embeddings above. -/
def txc21_style_stops_spec (env : NaptanCache) :
    List String → Except String (List StopRow × List String)
  | [] => .ok ([], [])
  | sid :: rest =>
    let naptan := read_naptan_stops env false
    let s1 := naptan.filter (fun r => r.stop_id == sid)
    if s1.length = 0 then
      let naptan2 := read_naptan_stops env true
      let s2 := naptan2.filter (fun r => r.stop_id == sid)
      if s2.length = 0 then
        match txc21_style_stops_spec env rest with
        | .ok (rows, warns) => .ok (rows, missWarning sid :: warns)
        | .error e => .error e
      else
        match txc21_style_stops_spec env rest with
        | .ok (rows, warns) => .ok (s2 ++ rows, warns)
        | .error e => .error e
    else if s1.length > 1 then
      .error ("Had more than 1 stop with identical stop reference.")
    else
      match txc21_style_stops_spec env rest with
      | .ok (rows, warns) => .ok (s1 ++ rows, warns)
      | .error e => .error e

/-- A stop registered upstream after the local cache was written: present
in a fresh registry copy, absent from the cached one. -/
def lateStop : StopRow := ⟨"490000009Z", 0, 51, "Late stop"⟩

/-- Environment whose cached registry predates `lateStop`. -/
def missEnv : NaptanCache := ⟨[], [lateStop]⟩

/-- The legacy 2.1-style resolver never consults the fresh registry copy:
its result is a function of the cached table alone, because no code path
deletes the cache between the two reads. -/
lemma txc21_legacy_cached_only (c f g : List StopRow) :
    ∀ sids : List String,
      txc21_style_stops_legacy ⟨c, f⟩ sids
        = txc21_style_stops_legacy ⟨c, g⟩ sids := by
  intro sids
  induction sids with
  | nil => rfl
  | cons sid rest ih =>
    simp [txc21_style_stops_legacy, read_naptan_stops, ih]

/-- C5: counterexample.  A stop resolvable only from a fresh registry
copy: the claimed retry-after-forced-refresh (spec-modelled third
conjunct) would resolve it, but the legacy resolver retries against the
same cache and ends up warning and omitting the stop, while the rewritten
resolver performs no retry and emits no warning at all. -/
theorem txc21_retry_never_refreshes :
    txc21_style_stops_legacy missEnv [lateStop.stop_id]
      = .ok ([], [missWarning lateStop.stop_id]) ∧
    txc21_style_stops missEnv [lateStop.stop_id] = ([], []) ∧
    txc21_style_stops_spec missEnv [lateStop.stop_id]
      = .ok ([lateStop], []) := by
  refine ⟨rfl, rfl, rfl⟩

/-- C5 (amended): on a registry miss the legacy 2.1-style resolver
re-reads the cache without forcing a refresh (its outcome is independent
of what a refresh would return), emits the warning naming the stop,
omits it, and continues with the remaining stop references. -/
theorem txc21_miss_warns_and_continues (c f g : List StopRow)
    (sid : String) (rest : List String)
    (hmiss : c.filter (fun r => r.stop_id == sid) = []) :
    txc21_style_stops_legacy ⟨c, f⟩ (sid :: rest)
      = (match txc21_style_stops_legacy ⟨c, f⟩ rest with
          | .ok (rows, warns) => .ok (rows, missWarning sid :: warns)
          | .error e => .error e) ∧
    txc21_style_stops_legacy ⟨c, f⟩ (sid :: rest)
      = txc21_style_stops_legacy ⟨c, g⟩ (sid :: rest) := by
  constructor
  · simp [txc21_style_stops_legacy, read_naptan_stops, hmiss]
  · exact txc21_legacy_cached_only c f g (sid :: rest)

/-- C5 witness: the amended theorem applied to a one-miss environment. -/
theorem txc21_miss_warns_and_continues_witness :
    (([] : List StopRow).filter (fun r => r.stop_id == "490000008Y") = [])
    ∧ (txc21_style_stops_legacy ⟨[], [lateStop]⟩ ["490000008Y"]
        = (match txc21_style_stops_legacy ⟨[], [lateStop]⟩ [] with
            | .ok (rows, warns) =>
              .ok (rows, missWarning ("490000008Y") :: warns)
            | .error e => .error e) ∧
      txc21_style_stops_legacy ⟨[], [lateStop]⟩ ["490000008Y"]
        = txc21_style_stops_legacy ⟨[], []⟩ ["490000008Y"]) :=
  ⟨rfl, txc21_miss_warns_and_continues [] [lateStop] [] ("490000008Y") [] rfl⟩

/-- The TfL-style inline StopPoint as consumed by `_get_tfl_style_stops`:
AtcoCode text, Descriptor/CommonName text, and the optional
Easting/Northing pair (`none` models a missing Place/Location, whose
extraction raises inside the `try` and is caught). -/
structure TflStopPoint where
  atco_code : String
  common_name : String
  location : Option (ℚ × ℚ)

/-- Model of the loop of `_get_tfl_style_stops`
(src/txc2gtfs/stops.py lines 44-146).  `reads i` is the table returned by
the (i+1)-th `read_naptan_stops()` call — the underlying `download_cached`
refreshes a stale cache, so successive reads can differ; `k` counts the
reads already performed and `naptan` is the table currently held in
`naptan_stops` (reassigned on every miss).  A post-refresh lookup that is
still empty falls back to the document coordinates, warning and skipping
the stop when they are absent.  Only an initial lookup with more than one
match raises ValueError; a post-refresh lookup with several matches is
appended as-is. -/
def tfl_style_stops_loop (transform : ℚ → ℚ → ℚ × ℚ)
    (reads : Nat → List StopRow) (k : Nat) (naptan : List StopRow) :
    List TflStopPoint → Except String (List StopRow × List String)
  | [] => .ok ([], [])
  | p :: rest =>
    let s1 := naptan.filter (fun r => r.stop_id == p.atco_code)
    if s1.length = 0 then
      let naptan2 := reads k
      let s2 := naptan2.filter (fun r => r.stop_id == p.atco_code)
      if s2.length = 0 then
        match p.location with
        | none =>
          match tfl_style_stops_loop transform reads (k + 1) naptan2 rest with
          | .ok (rows, warns) => .ok (rows, missWarning p.atco_code :: warns)
          | .error e => .error e
        | some (x, y) =>
          let c := fallback_coords transform x y
          let row : StopRow := ⟨p.atco_code, c.1.1, c.1.2, p.common_name⟩
          match tfl_style_stops_loop transform reads (k + 1) naptan2 rest with
          | .ok (rows, warns) => .ok (row :: rows, warns)
          | .error e => .error e
      else
        match tfl_style_stops_loop transform reads (k + 1) naptan2 rest with
        | .ok (rows, warns) => .ok (s2 ++ rows, warns)
        | .error e => .error e
    else if s1.length > 1 then
      .error ("Had more than 1 stop with identical stop reference.")
    else
      match tfl_style_stops_loop transform reads k naptan rest with
      | .ok (rows, warns) => .ok (s1 ++ rows, warns)
      | .error e => .error e

/-- Model of `_get_tfl_style_stops` itself: the first
`read_naptan_stops()` call fills `naptan_stops`, then the loop runs. -/
def tfl_style_stops (transform : ℚ → ℚ → ℚ × ℚ)
    (reads : Nat → List StopRow) (points : List TflStopPoint) :
    Except String (List StopRow × List String) :=
  tfl_style_stops_loop transform reads 1 (reads 0) points

/-- Two distinct registry records sharing one stop_id. -/
def dupA : StopRow := ⟨"490000003C", 0, 51, "Stop A"⟩

/-- Second record with the same stop reference. -/
def dupB : StopRow := ⟨"490000003C", 1, 52, "Stop B"⟩

/-- C6: counterexample.  When the initial lookup misses and the lookup
repeated after the cache refresh returns TWO records for the stop
reference, no error is raised: both records are silently appended to the
output. -/
theorem tfl_post_refresh_duplicates_kept :
    tfl_style_stops (fun a b => (a, b))
      (fun i => if i = 0 then [] else [dupA, dupB])
      [⟨"490000003C", "Some stop", none⟩]
      = .ok ([dupA, dupB], []) := rfl

/-- C6 (amended): duplicate registry matches raise ValueError only when
they show up on the initial lookup against the currently-held table. -/
theorem tfl_initial_duplicate_raises (transform : ℚ → ℚ → ℚ × ℚ)
    (reads : Nat → List StopRow) (k : Nat) (naptan : List StopRow)
    (p : TflStopPoint) (rest : List TflStopPoint)
    (h : 1 < (naptan.filter (fun r => r.stop_id == p.atco_code)).length) :
    tfl_style_stops_loop transform reads k naptan (p :: rest)
      = .error ("Had more than 1 stop with identical stop reference.") := by
  have h0 : ¬ (naptan.filter (fun r => r.stop_id == p.atco_code)).length = 0 := by
    omega
  simp only [tfl_style_stops_loop]
  rw [if_neg h0, if_pos h]

/-- C6 witness: a duplicated initial match raises. -/
theorem tfl_initial_duplicate_raises_witness :
    1 < (([dupA, dupB]).filter
      (fun r => r.stop_id == ("490000003C" : String))).length ∧
    tfl_style_stops_loop (fun a b => (a, b)) (fun _ => []) 1 [dupA, dupB]
      [⟨"490000003C", "Some stop", none⟩]
      = .error ("Had more than 1 stop with identical stop reference.") :=
  ⟨by decide,
    tfl_initial_duplicate_raises (fun a b => (a, b)) (fun _ => []) 1
      [dupA, dupB] ⟨"490000003C", "Some stop", none⟩ [] (by decide)⟩

/-- A bare-bones XML element: namespace-stripped local tag name and child
elements (text content is irrelevant to strategy dispatch). -/
inductive XElem where
  | mk (tag : String) (children : List XElem)

/-- Local tag name of an element. -/
def XElem.tag : XElem → String
  | .mk t _ => t

/-- Child elements of an element. -/
def XElem.children : XElem → List XElem
  | .mk _ c => c

/-- ElementTree `element.find(tag)`: the first child with the given local
name. -/
def XElem.findChild (e : XElem) (t : String) : Option XElem :=
  e.children.find? (fun c => c.tag == t)

/-- Python truthiness of an `Optional[Element]`: `None` is falsy, and an
ElementTree `Element` is truthy exactly when it has at least one child. -/
def elemTruthy : Option XElem → Bool
  | none => false
  | some e => !e.children.isEmpty

/-- The two stop-extraction strategies. -/
inductive StopStrategy where
  | tflStyle
  | txc21Style
  deriving Repr, DecidableEq

/-- Strategy dispatch of `get_stops` (src/txc2gtfs/stops.py lines
169-185).  The first branch tests `find("txc:StopPoint") is not None`;
the second branch tests the TRUTHINESS of
`find("txc:AnnotatedStopPointRef")` — element present AND bearing at
least one child — not its presence. -/
def get_stops_strategy (root : XElem) : Except String StopStrategy :=
  match root.findChild ("StopPoints") with
  | none => .error ("No StopPoints element. Could not parse stop information.")
  | some sp =>
    if (sp.findChild ("StopPoint")).isSome then .ok .tflStyle
    else if elemTruthy (sp.findChild ("AnnotatedStopPointRef")) then
      .ok .txc21Style
    else .error ("No StopPoint or AnnotatedStopPointRef elements.")

/-- Document whose StopPoints container holds a childless
AnnotatedStopPointRef element. -/
def childlessRefDoc : XElem :=
  .mk ("TransXChange") [.mk ("StopPoints") [.mk ("AnnotatedStopPointRef") []]]

/-- Document whose AnnotatedStopPointRef carries its mandatory
StopPointRef child. -/
def normalRefDoc : XElem :=
  .mk ("TransXChange") [.mk ("StopPoints")
    [.mk ("AnnotatedStopPointRef") [.mk ("StopPointRef") []]]]

/-- C7: the dispatch tests the truthiness of the found
AnnotatedStopPointRef element instead of its presence, so a StopPoints
container whose AnnotatedStopPointRef child has no children of its own is
mis-reported as a schema mismatch, against the claimed and documented
presence rule (the adjacent StopPoint branch and the legacy package both
test presence); with the mandatory StopPointRef child present the
2.1-style strategy is selected as claimed. -/
theorem get_stops_childless_ref_misdispatch :
    get_stops_strategy childlessRefDoc
      = .error ("No StopPoint or AnnotatedStopPointRef elements.") ∧
    get_stops_strategy normalRefDoc = .ok .txc21Style := ⟨rfl, rfl⟩

/-- Outcome of one `urlretrieve` attempt. -/
inductive FetchOutcome where
  | success
  | incompleteRead
  | otherError
  deriving Repr, DecidableEq

/-- Result of a `download_cached` call that returns normally: the cached
file was fresh, or a complete download was renamed into place, or — after
every attempt ended in a suppressed IncompleteRead — the PARTIAL tmp file
of the last attempt was renamed into place, silently installing a
truncated cache. -/
inductive FetchResult where
  | cacheHit
  | downloaded
  | truncated
  deriving Repr, DecidableEq

/-- Model of the retry loop of the rewritten `download_cached`
(src/txc2gtfs/util/network.py lines 35-39): `for i in range(1, 4)` with
`contextlib.suppress(IncompleteRead)` around `urlretrieve` and a `break`
on success.  `n` is the number of attempts left, `i` the 1-based attempt
index; returns whether some attempt succeeded, or the exception that
escaped the suppress. -/
def run_attempts (att : Nat → FetchOutcome) : Nat → Nat → Except String Bool
  | 0, _ => .ok false
  | n + 1, i =>
    match att i with
    | .success => .ok true
    | .incompleteRead => run_attempts att n (i + 1)
    | .otherError => .error ("unhandled exception from urlretrieve")

/-- Model of `download_cached` of the rewritten package
(src/txc2gtfs/util/network.py lines 15-42).  `cacheGood` abstracts
`cached_file_is_good()` — cache file present and younger than `max_age` —
and `att i` is the outcome of the i-th `urlretrieve` attempt.
`urlretrieve` opens and streams into the tmp file before the body read
that can raise IncompleteRead, so even when all three attempts ended in a
suppressed IncompleteRead a partial tmp file exists: the closing
`tmp.rename(cached_file)` then succeeds and the function returns
normally, installing the truncated partial download as the cache — the
failure does NOT escalate. -/
def download_cached (cacheGood : Bool) (att : Nat → FetchOutcome) :
    Except String FetchResult :=
  if cacheGood then .ok .cacheHit
  else
    match run_attempts att 3 1 with
    | .ok true => .ok .downloaded
    | .ok false => .ok .truncated
    | .error e => .error e

/-- Model of `download_cached` of the legacy package
(src/transx2gtfs/util/network.py lines 13-35): one `urlretrieve` call
with no retry loop and no exception handling. -/
def download_cached_legacy (cacheGood : Bool) (att : Nat → FetchOutcome) :
    Except String FetchResult :=
  if cacheGood then .ok .cacheHit
  else
    match att 1 with
    | .success => .ok .downloaded
    | .incompleteRead => .error ("http.client.IncompleteRead")
    | .otherError => .error ("unhandled exception from urlretrieve")

/-- Attempt outcomes whose first try is a truncated transfer and whose
second succeeds. -/
def flakyAtt : Nat → FetchOutcome :=
  fun i => if i = 1 then .incompleteRead else .success

/-- C9: counterexample, refuting both halves of the claim.  Under
attempt outcomes the claimed 3-try retry tolerates (IncompleteRead once,
then success) the legacy `download_cached` fails immediately: it performs
a single attempt and propagates the IncompleteRead, while the rewritten
variant retries and succeeds.  And when every attempt of the rewritten
variant is a suppressed IncompleteRead, the exhausted retries do NOT
escalate to a fatal error: the partial tmp file is renamed into place and
the call returns normally with a truncated cache. -/
theorem legacy_download_does_not_retry :
    download_cached_legacy false flakyAtt
      = .error ("http.client.IncompleteRead") ∧
    download_cached false flakyAtt = .ok .downloaded ∧
    download_cached false (fun _ => FetchOutcome.incompleteRead)
      = .ok .truncated := ⟨rfl, rfl, rfl⟩

/-- C9 (amended): for the rewritten variant, with the cache entry missing
or stale, IncompleteRead outcomes are tolerated between attempts and a
later success still downloads; after three suppressed IncompleteRead
attempts the failure does not escalate — the partial last download is
silently installed as a truncated cache; a non-IncompleteRead error
propagates at once; and the legacy variant escalates an IncompleteRead
on its single attempt immediately, with no retry. -/
theorem download_cached_retry_bound (att : Nat → FetchOutcome) :
    (att 1 = .incompleteRead → att 2 = .success →
      download_cached false att = .ok .downloaded) ∧
    (att 1 = .incompleteRead → att 2 = .incompleteRead →
      att 3 = .incompleteRead →
      download_cached false att = .ok .truncated) ∧
    (att 1 = .otherError →
      download_cached false att
        = .error ("unhandled exception from urlretrieve")) ∧
    (att 1 = .incompleteRead →
      download_cached_legacy false att
        = .error ("http.client.IncompleteRead")) := by
  refine ⟨?_, ?_, ?_, ?_⟩
  · intro h1 h2
    simp [download_cached, run_attempts, h1, h2]
  · intro h1 h2 h3
    simp [download_cached, run_attempts, h1, h2, h3]
  · intro h1
    simp [download_cached, run_attempts, h1]
  · intro h1
    simp [download_cached_legacy, h1]

/-- C9 witness: three truncated transfers in a row install a truncated
cache without any error. -/
theorem download_cached_retry_bound_witness :
    (fun _ : Nat => FetchOutcome.incompleteRead) 1
        = FetchOutcome.incompleteRead ∧
    download_cached false (fun _ => FetchOutcome.incompleteRead)
      = .ok .truncated :=
  ⟨rfl, (download_cached_retry_bound
    (fun _ => FetchOutcome.incompleteRead)).2.1 rfl rfl rfl⟩

end TxcGtfs
